import Mathlib

/-!
Shallow embedding of the GANDI Command Center dashboard
(`gandi_command_center.py`): the entity registry, the metrics-snapshot
data model, the universe/orbit graph builders (`render_universe`,
`render_entity_orbit`) and the webhook client (`fetch_n8n_webhook`),
together with proofs about them.
-/

namespace Gandi

/-- Descriptor of one business entity, mirroring the per-code dicts of the
`ENTITIES` configuration: display name, colors, icon, location, and the
optional `hipaa` flag (absent in Python means `False` via `info.get`). -/
structure EntityInfo where
  name : String
  color : String
  icon : String
  glow : String
  location : String
  hipaa : Bool
  deriving DecidableEq, Repr

/-- Per-entity metrics as found under the snapshot's `entities` key; every
field is optional, mirroring `dict.get(key, default)` access in the source. -/
structure EntityMetrics where
  health_score : Option Int
  pending_items : Option Int
  status : Option String
  recent_activity : Option String
  deriving DecidableEq, Repr

/-- `email_summary` block of the snapshot (display-only in the source). -/
structure EmailSummary where
  unread_count : Option Int
  deriving DecidableEq, Repr

/-- `calendar_summary` block of the snapshot (display-only in the source). -/
structure CalendarSummary where
  events_today : Option Int
  deriving DecidableEq, Repr

/-- `system_health` block of the snapshot (display-only in the source). -/
structure SystemHealth where
  pending_tasks : Option Int
  deriving DecidableEq, Repr

/-- `alerts` block of the snapshot (display-only in the source). -/
structure Alerts where
  count : Option Int
  items : List String
  deriving DecidableEq, Repr

/-- The live-data snapshot loaded from `data/live_data.json`: the `entities`
mapping (code to metrics, modelled as an association list in JSON-object
order) plus the top-level aggregate blocks used only by the display code. -/
structure LiveData where
  entities : List (String × EntityMetrics)
  email_summary : Option EmailSummary
  calendar_summary : Option CalendarSummary
  system_health : Option SystemHealth
  alerts : Option Alerts
  last_updated : Option String
  deriving DecidableEq, Repr

/-- Python `dict.get(key)`: first binding of `key` in the association list. -/
def dictGet {α : Type} : List (String × α) → String → Option α
  | [], _ => none
  | (k, v) :: rest, key => if k = key then some v else dictGet rest key

/-- `live_data.get("entities", {}) if live_data else {}`. -/
def entities_of : Option LiveData → List (String × EntityMetrics)
  | some d => d.entities
  | none => []

/-- `entity_data.get(code, {}).get("health_score", 80)`. -/
def health_of (m : Option EntityMetrics) : Int :=
  (m.bind EntityMetrics.health_score).getD 80

/-- `entity_data.get(code, {}).get("pending_items", 0)`. -/
def pending_of (m : Option EntityMetrics) : Int :=
  (m.bind EntityMetrics.pending_items).getD 0

/-- `entity_data.get(code, {}).get("status", "Active")`. -/
def status_of (m : Option EntityMetrics) : String :=
  (m.bind EntityMetrics.status).getD "Active"

/-- `entity_data.get(code, {}).get("recent_activity", "No recent activity")`. -/
def recent_of (m : Option EntityMetrics) : String :=
  (m.bind EntityMetrics.recent_activity).getD "No recent activity"

/-- `UNIVERSE_THEME["core_glow"]`. -/
def core_glow : String := "#00D4FF"

/-- `UNIVERSE_THEME["void_black"]`. -/
def void_black : String := "#050510"

/-- The `"AFK"` entry of `ENTITIES`. -/
def afk_info : EntityInfo :=
  ⟨"Afro Farm Kenya", "#00FF94", "🌾", "#00FF9455", "Kenya", false⟩

/-- The `"GAKP"` entry of `ENTITIES`. -/
def gakp_info : EntityInfo :=
  ⟨"GAK Properties", "#FF0055", "🏢", "#FF005555", "USA", false⟩

/-- The `"GIFP"` entry of `ENTITIES`. -/
def gifp_info : EntityInfo :=
  ⟨"GIF Properties", "#FFD700", "🏠", "#FFD70055", "USA", false⟩

/-- The `"COMF"` entry of `ENTITIES` (the only one with `"hipaa": True`). -/
def comf_info : EntityInfo :=
  ⟨"Comfort Services", "#00B8FF", "💊", "#00B8FF55", "USA", true⟩

/-- The `"GAKC"` entry of `ENTITIES`. -/
def gakc_info : EntityInfo :=
  ⟨"GAK Commodities", "#9D00FF", "📦", "#9D00FF55", "Kenya", false⟩

/-- The `"PRSL"` entry of `ENTITIES`. -/
def prsl_info : EntityInfo :=
  ⟨"Personal", "#FF6B35", "👤", "#FF6B3555", "USA", false⟩

/-- The fixed `ENTITIES` registry of the source, in declaration order. -/
def ENTITIES : List (String × EntityInfo) :=
  [ ("AFK", afk_info), ("GAKP", gakp_info), ("GIFP", gifp_info),
    ("COMF", comf_info), ("GAKC", gakc_info), ("PRSL", prsl_info) ]

/-- One entry of the ECharts `categories` list. -/
structure UCategory where
  name : String
  color : String
  deriving DecidableEq, Repr

/-- The `categories` list of `render_universe`: index 0 Core, 1 Kenya,
2 USA, 3 Healthcare. -/
def categoriesList : List UCategory :=
  [ ⟨"Core", core_glow⟩, ⟨"Kenya", "#00FF94"⟩,
    ⟨"USA", "#FF0055"⟩, ⟨"Healthcare", "#00B8FF"⟩ ]

/-- `itemStyle` dict of a universe node. -/
structure ItemStyle where
  color : String
  shadowBlur : ℚ
  shadowColor : String
  deriving DecidableEq, Repr

/-- `label` dict of a node (fontWeight key present only on some nodes). -/
structure NodeLabel where
  visible : Bool
  color : String
  fontSize : ℚ
  fontWeight : Option String
  deriving DecidableEq, Repr

/-- A node of the universe graph, with the keys emitted by the source
(`fixed`/`x`/`y` only on the core node, modelled with `Option`). -/
structure UNode where
  name : String
  symbolSize : ℚ
  value : String
  category : Nat
  fixed : Bool
  x : Option ℚ
  y : Option ℚ
  itemStyle : ItemStyle
  label : NodeLabel
  deriving DecidableEq, Repr

/-- `lineStyle` dict of a universe edge (`opacity` key only on hub edges). -/
structure LineStyle where
  color : String
  width : ℚ
  curveness : ℚ
  opacity : Option ℚ
  deriving DecidableEq, Repr

/-- An edge of the universe graph. -/
structure ULink where
  source : String
  target : String
  lineStyle : LineStyle
  deriving DecidableEq, Repr

/-- The universe graph: the `categories`, `data` (nodes) and `links` fields
of the ECharts series produced by `render_universe`. -/
structure UGraph where
  categories : List UCategory
  nodes : List UNode
  links : List ULink
  deriving DecidableEq, Repr

/-- The pinned `GANDI\nCORE` node. -/
def core_node : UNode :=
  { name := "GANDI\nCORE", symbolSize := 100, value := "Command Center",
    category := 0, fixed := true, x := some 400, y := some 300,
    itemStyle := { color := core_glow, shadowBlur := 30, shadowColor := core_glow },
    label := { visible := true, color := "#FFFFFF", fontSize := 14,
               fontWeight := some "bold" } }

/-- The node name used for an entity throughout `render_universe` and
`render_entity_orbit`: the f-string `"{icon} {code}"`. -/
def entity_name (code : String) (info : EntityInfo) : String :=
  info.icon ++ " " ++ code

/-- The entity node emitted by the per-entity loop of `render_universe`:
category precedence hipaa, then Kenya, then USA; symbol size
`30 + (health / 100) * 40`. -/
def universe_entity_node (m : Option EntityMetrics) (code : String)
    (info : EntityInfo) : UNode :=
  let health := health_of m
  let pending := pending_of m
  let cat : Nat := if info.hipaa then 3 else if info.location = "Kenya" then 1 else 2
  let size : ℚ := 30 + ((health : ℚ) / 100) * 40
  { name := entity_name code info, symbolSize := size,
    value := info.name ++ "\nHealth: " ++ toString health ++ "%\nPending: "
               ++ toString pending,
    category := cat, fixed := false, x := none, y := none,
    itemStyle := { color := info.color, shadowBlur := 20, shadowColor := info.glow },
    label := { visible := true, color := "#FFFFFF", fontSize := 12,
               fontWeight := none } }

/-- The hub edge from the core node to one entity. -/
def hub_link (code : String) (info : EntityInfo) : ULink :=
  { source := "GANDI\nCORE", target := entity_name code info,
    lineStyle := { color := info.color, width := 2, curveness := 1/10,
                   opacity := some (6/10) } }

/-- A peer edge between two entity node names. -/
def peer_link (e1 e2 : String) (color : String) : ULink :=
  { source := e1, target := e2,
    lineStyle := { color := color, width := 1, curveness := 2/10, opacity := none } }

/-- The nested loop `for i, e1 in enumerate(names): for e2 in names[i+1:]`:
one edge per ordered index pair i < j, in the source's append order. -/
def pair_links : List String → String → List ULink
  | [], _ => []
  | e1 :: rest, color =>
      rest.map (fun e2 => peer_link e1 e2 color) ++ pair_links rest color

/-- `kenya_entities`: names of entities with location "Kenya". -/
def kenya_names (r : List (String × EntityInfo)) : List String :=
  (r.filter (fun p => p.2.location == "Kenya")).map (fun p => entity_name p.1 p.2)

/-- `usa_entities`: names of entities with location "USA" and no hipaa flag. -/
def usa_names (r : List (String × EntityInfo)) : List String :=
  (r.filter (fun p => p.2.location == "USA" && !p.2.hipaa)).map
    (fun p => entity_name p.1 p.2)

/-- Line color of Kenya peer edges. -/
def kenyaPeerColor : String := "#00FF9433"

/-- Line color of USA peer edges. -/
def usaPeerColor : String := "#FF005533"

/-- The Kenya peer-edge block of `render_universe`. -/
def kenya_peer_links (r : List (String × EntityInfo)) : List ULink :=
  pair_links (kenya_names r) kenyaPeerColor

/-- The USA peer-edge block of `render_universe`. -/
def usa_peer_links (r : List (String × EntityInfo)) : List ULink :=
  pair_links (usa_names r) usaPeerColor

/-- `render_universe(live_data)`, parameterised by the registry `r` (the
source reads the module-level `ENTITIES`): core node plus one node per
entity, then hub edges, Kenya peer edges and USA (non-hipaa) peer edges. -/
def render_universe (r : List (String × EntityInfo))
    (live_data : Option LiveData) : UGraph :=
  let entity_data := entities_of live_data
  { categories := categoriesList,
    nodes := core_node
      :: r.map (fun p => universe_entity_node (dictGet entity_data p.1) p.1 p.2),
    links := r.map (fun p => hub_link p.1 p.2)
      ++ kenya_peer_links r
      ++ usa_peer_links r }

/-- `itemStyle` of an orbit node (satellites carry only `color`). -/
structure OItemStyle where
  color : String
  shadowBlur : Option ℚ
  shadowColor : Option String
  deriving DecidableEq, Repr

/-- A node of the orbit graph. -/
structure ONode where
  name : String
  symbolSize : ℚ
  value : Option String
  fixed : Bool
  x : Option ℚ
  y : Option ℚ
  itemStyle : OItemStyle
  label : Option NodeLabel
  deriving DecidableEq, Repr

/-- An edge of the orbit graph (`{"source": ..., "target": ...}`). -/
structure OLink where
  source : String
  target : String
  deriving DecidableEq, Repr

/-- The orbit graph: the `data` and `links` of `render_entity_orbit`'s series. -/
structure OGraph where
  nodes : List ONode
  links : List OLink
  deriving DecidableEq, Repr

/-- Color of the health satellite:
`"#00FF94" if health >= 80 else "#FFD700" if health >= 60 else "#FF0055"`. -/
def health_color (health : Int) : String :=
  if health ≥ 80 then "#00FF94" else if health ≥ 60 then "#FFD700" else "#FF0055"

/-- Color of the pending satellite: `"#FF6B35" if pending > 0 else "#00FF94"`. -/
def pending_color (pending : Int) : String :=
  if pending > 0 then "#FF6B35" else "#00FF94"

/-- Color of the status satellite: `"#00FF94" if status == "Active" else "#FF0055"`. -/
def status_color (status : String) : String :=
  if status = "Active" then "#00FF94" else "#FF0055"

/-- `render_entity_orbit(entity_code, live_data)`, parameterised by the
registry `r`: `None` when the code is not registered, otherwise a 4-node
star (central entity plus health / pending / status satellites). -/
def render_entity_orbit (r : List (String × EntityInfo)) (entity_code : String)
    (live_data : Option LiveData) : Option OGraph :=
  match dictGet r entity_code with
  | none => none
  | some info =>
    let em := dictGet (entities_of live_data) entity_code
    let health := health_of em
    let pending := pending_of em
    let status := status_of em
    let centralName := entity_name entity_code info
    let healthName := "Health\n" ++ toString health ++ "%"
    let pendingName := "Pending\n" ++ toString pending
    let statusName := "Status\n" ++ status
    some
      { nodes :=
          [ { name := centralName, symbolSize := 80,
              value := some (info.name ++ "\nStatus: " ++ status),
              fixed := true, x := some 300, y := some 200,
              itemStyle := { color := info.color, shadowBlur := some 30,
                             shadowColor := some info.glow },
              label := some { visible := true, color := "#FFFFFF", fontSize := 14,
                              fontWeight := some "bold" } },
            { name := healthName, symbolSize := 40, value := none,
              fixed := false, x := none, y := none,
              itemStyle := { color := health_color health, shadowBlur := none,
                             shadowColor := none },
              label := none },
            { name := pendingName, symbolSize := 35, value := none,
              fixed := false, x := none, y := none,
              itemStyle := { color := pending_color pending, shadowBlur := none,
                             shadowColor := none },
              label := none },
            { name := statusName, symbolSize := 35, value := none,
              fixed := false, x := none, y := none,
              itemStyle := { color := status_color status, shadowBlur := none,
                             shadowColor := none },
              label := none } ],
        links :=
          [ { source := centralName, target := healthName },
            { source := centralName, target := pendingName },
            { source := centralName, target := statusName } ] }

/-- Outcome of the underlying `requests.post`/`requests.get` call inside
`fetch_n8n_webhook`, abstracted over the parsed-body type `α`:
either an HTTP response arrived (with a status code and the result of
calling `.json()` on it, which may raise), or the call itself raised
(connection error, timeout, ...). -/
inductive HttpResult (α : Type) where
  | response (status : Int) (jsonBody : Except String α)
  | exn (msg : String)

/-- What `fetch_n8n_webhook` returns to its caller: a parsed JSON body, the
bare `None`, or the `{"error": str(e)}` dict built in the `except` branch. -/
inductive FetchResult (α : Type) where
  | json (v : α)
  | nothing
  | errorDict (msg : String)
  deriving DecidableEq, Repr

/-- `True` exactly on the `{"error": ...}` failure dict. -/
def FetchResult.isErrorDict {α : Type} : FetchResult α → Bool
  | .errorDict _ => true
  | _ => false

/-- `fetch_n8n_webhook(endpoint, data)`: the body is
`return response.json() if response.status_code == 200 else None` inside a
`try`, with `except Exception as e: return {"error": str(e)}`. A raised
request gives the error dict; a non-200 status gives `None`; a 200 status
gives the parsed body, or the error dict when `.json()` raises. -/
def fetch_n8n_webhook {α : Type} (t : HttpResult α) : FetchResult α :=
  match t with
  | .exn e => .errorDict e
  | .response status body =>
      if status = 200 then
        match body with
        | .ok v => .json v
        | .error e => .errorDict e
      else .nothing

/-! ### Shared lemmas -/

/-- Membership in the nested pair loop: exactly the edges between an earlier
and a later element of `names` (as a two-element subsequence). -/
theorem mem_pair_links {l : ULink} {names : List String} {c : String} :
    l ∈ pair_links names c
      ↔ ∃ e1 e2, List.Sublist [e1, e2] names ∧ l = peer_link e1 e2 c := by
  induction names with
  | nil =>
    simp [pair_links]
  | cons n rest ih =>
    simp only [pair_links, List.mem_append, List.mem_map, ih]
    constructor
    · rintro (⟨e2, he2, rfl⟩ | ⟨e1, e2, hs, rfl⟩)
      · exact ⟨n, e2, (List.singleton_sublist.mpr he2).cons₂ n, rfl⟩
      · exact ⟨e1, e2, hs.cons n, rfl⟩
    · rintro ⟨e1, e2, hs, rfl⟩
      cases hs with
      | cons _ hs' => exact Or.inr ⟨e1, e2, hs', rfl⟩
      | cons₂ _ hs' => exact Or.inl ⟨e2, List.singleton_sublist.mp hs', rfl⟩

/-- Both endpoints of a peer edge are names from the list it was built over. -/
theorem pair_links_endpoints {l : ULink} {names : List String} {c : String}
    (h : l ∈ pair_links names c) : l.source ∈ names ∧ l.target ∈ names := by
  rcases mem_pair_links.mp h with ⟨e1, e2, hs, rfl⟩
  have hsub := hs.subset
  exact ⟨hsub (by simp [peer_link]), hsub (by simp [peer_link])⟩

/-- Kenya peer names are entity names of registry entries. -/
theorem kenya_names_sub {r : List (String × EntityInfo)} {x : String}
    (h : x ∈ kenya_names r) : ∃ p ∈ r, entity_name p.1 p.2 = x := by
  rcases List.mem_map.mp h with ⟨p, hp, rfl⟩
  exact ⟨p, List.mem_of_mem_filter hp, rfl⟩

/-- USA peer names are entity names of non-hipaa USA registry entries. -/
theorem usa_names_sub {r : List (String × EntityInfo)} {x : String}
    (h : x ∈ usa_names r) :
    ∃ p ∈ r, p.2.location = "USA" ∧ p.2.hipaa = false ∧ entity_name p.1 p.2 = x := by
  rcases List.mem_map.mp h with ⟨p, hp, rfl⟩
  have hmem := List.mem_of_mem_filter hp
  have hcond := List.of_mem_filter hp
  rw [Bool.and_eq_true, beq_iff_eq, Bool.not_eq_true'] at hcond
  exact ⟨p, hmem, hcond.1, hcond.2, rfl⟩

/-! ### Claim theorems -/

/-- Claim C1: in every universe graph, a regulated (`hipaa`) entity never
appears as an endpoint of a USA peer edge — the peer-edge blocks of
`render_universe`'s link list never mention it, for every registry (with
unambiguous node names), snapshot, and regulated entity. -/
theorem regulated_excluded_from_usa_peers (r : List (String × EntityInfo))
    (d : Option LiveData) (code : String) (info : EntityInfo)
    (_hmem : (code, info) ∈ r) (hreg : info.hipaa = true)
    (hinj : ∀ q ∈ r, entity_name q.1 q.2 = entity_name code info → q = (code, info)) :
    (render_universe r d).links
      = (r.map fun p => hub_link p.1 p.2) ++ kenya_peer_links r ++ usa_peer_links r
    ∧ ∀ l ∈ usa_peer_links r,
        l.source ≠ entity_name code info ∧ l.target ≠ entity_name code info := by
  refine ⟨rfl, ?_⟩
  intro l hl
  simp only [usa_peer_links] at hl
  have hend := pair_links_endpoints hl
  have key : entity_name code info ∉ usa_names r := by
    intro h1
    obtain ⟨p, hp, _, hhip, hname⟩ := usa_names_sub h1
    have hpe := hinj p hp hname
    simp only [hpe] at hhip
    simp [hhip] at hreg
  exact ⟨fun heq => key (heq ▸ hend.1), fun heq => key (heq ▸ hend.2)⟩

/-- Witness for claim C1: the actual registry, with the regulated entity
COMF — no USA peer edge touches it. -/
theorem regulated_excluded_from_usa_peers_witness :
    (render_universe ENTITIES none).links
      = (ENTITIES.map fun p => hub_link p.1 p.2)
          ++ kenya_peer_links ENTITIES ++ usa_peer_links ENTITIES
    ∧ ∀ l ∈ usa_peer_links ENTITIES,
        l.source ≠ entity_name "COMF" comf_info
        ∧ l.target ≠ entity_name "COMF" comf_info :=
  regulated_excluded_from_usa_peers ENTITIES none "COMF" comf_info
    (by decide) rfl (by decide)

/-- Claim C3: the category of every entity node follows the strict
precedence hipaa → Healthcare (index 3), else Kenya → Kenya (index 1),
else USA (index 2), and the index resolves to exactly that category name
in the `categories` list. -/
theorem entity_category_precedence (r : List (String × EntityInfo))
    (d : Option LiveData) (code : String) (info : EntityInfo)
    (hmem : (code, info) ∈ r) :
    universe_entity_node (dictGet (entities_of d) code) code info
      ∈ (render_universe r d).nodes
    ∧ (universe_entity_node (dictGet (entities_of d) code) code info).category
        = (if info.hipaa then 3 else if info.location = "Kenya" then 1 else 2)
    ∧ (categoriesList.map UCategory.name)[(universe_entity_node
          (dictGet (entities_of d) code) code info).category]?
        = some (if info.hipaa then "Healthcare"
                else if info.location = "Kenya" then "Kenya" else "USA") := by
  refine ⟨?_, rfl, ?_⟩
  · simp only [render_universe]
    exact List.mem_cons_of_mem _ (List.mem_map_of_mem _ hmem)
  · cases hb : info.hipaa <;> by_cases hl : info.location = "Kenya" <;>
      simp [universe_entity_node, categoriesList, core_glow, hb, hl]

/-- Witness for claim C3: COMF is regulated and located in the USA; its
node lands in category 3, "Healthcare". -/
theorem entity_category_precedence_witness :
    (universe_entity_node (dictGet (entities_of none) "COMF") "COMF" comf_info).category = 3
    ∧ (categoriesList.map UCategory.name)[(universe_entity_node
          (dictGet (entities_of none) "COMF") "COMF" comf_info).category]?
        = some "Healthcare" := by
  have h := entity_category_precedence ENTITIES none "COMF" comf_info (by decide)
  exact ⟨by simpa [comf_info] using h.2.1, by simpa [comf_info] using h.2.2⟩

/-- Claim C4: for health scores in [0,100] the entity node size is
`30 + (health / 100) * 40`, lies in [30,70], and is monotone in the
health score; the node built this way is a node of the universe graph. -/
theorem entity_node_size (m m2 : Option EntityMetrics) (code : String)
    (info : EntityInfo)
    (h0 : 0 ≤ health_of m) (h100 : health_of m ≤ 100) :
    (universe_entity_node m code info).symbolSize
        = 30 + ((health_of m : ℚ) / 100) * 40
    ∧ 30 ≤ (universe_entity_node m code info).symbolSize
    ∧ (universe_entity_node m code info).symbolSize ≤ 70
    ∧ (health_of m ≤ health_of m2 →
        (universe_entity_node m code info).symbolSize
          ≤ (universe_entity_node m2 code info).symbolSize)
    ∧ ∀ (r : List (String × EntityInfo)) (d : Option LiveData),
        (code, info) ∈ r →
        universe_entity_node (dictGet (entities_of d) code) code info
          ∈ (render_universe r d).nodes := by
  have hsize : ∀ m' : Option EntityMetrics,
      (universe_entity_node m' code info).symbolSize
        = 30 + ((health_of m' : ℚ) / 100) * 40 := fun _ => rfl
  have hq0 : (0 : ℚ) ≤ (health_of m : ℚ) := by exact_mod_cast h0
  have hq100 : (health_of m : ℚ) ≤ 100 := by exact_mod_cast h100
  refine ⟨hsize m, ?_, ?_, ?_, ?_⟩
  · rw [hsize m]; linarith
  · rw [hsize m]; linarith
  · intro hle
    have hq : (health_of m : ℚ) ≤ (health_of m2 : ℚ) := by exact_mod_cast hle
    rw [hsize m, hsize m2]; linarith
  · intro r d hmem
    simp only [render_universe]
    exact List.mem_cons_of_mem _ (List.mem_map_of_mem _ hmem)

/-- Witness for claim C4: a snapshot entry with health 50 gives a node of
size in [30,70]. -/
theorem entity_node_size_witness :
    30 ≤ (universe_entity_node (some ⟨some 50, none, none, none⟩) "AFK" afk_info).symbolSize
    ∧ (universe_entity_node (some ⟨some 50, none, none, none⟩) "AFK" afk_info).symbolSize ≤ 70 := by
  have h := entity_node_size (some ⟨some 50, none, none, none⟩)
    (some ⟨some 90, none, none, none⟩) "AFK" afk_info (by decide) (by decide)
  exact ⟨h.2.1, h.2.2.1⟩

/-- A snapshot entry used to exercise the orbit view: health 79, two
pending items, status "Active". -/
def sample_metrics : EntityMetrics := ⟨some 79, some 2, some "Active", none⟩

/-- A snapshot holding only the AFK entry above. -/
def sample_live : LiveData := ⟨[("AFK", sample_metrics)], none, none, none, none, none⟩

/-- The orbit graph of AFK under `sample_live`. -/
def afk_orbit_79 : OGraph :=
  (render_entity_orbit ENTITIES "AFK" (some sample_live)).getD ⟨[], []⟩

/-- Claim C5: the three satellites of the orbit graph are colored exactly
by the threshold rules — health: green iff `80 ≤ h`, yellow iff
`60 ≤ h < 80`, red iff `h < 60`; pending: orange iff positive, green iff
zero; status: green iff `"Active"`, red otherwise. -/
theorem orbit_satellite_colors (r : List (String × EntityInfo)) (code : String)
    (info : EntityInfo) (d : Option LiveData) (g : OGraph)
    (hcode : dictGet r code = some info)
    (hg : render_entity_orbit r code d = some g)
    (hpend : 0 ≤ pending_of (dictGet (entities_of d) code)) :
    ((g.nodes.map fun n => n.itemStyle.color)[1]?
        = some (health_color (health_of (dictGet (entities_of d) code)))
      ∧ (g.nodes.map fun n => n.itemStyle.color)[2]?
          = some (pending_color (pending_of (dictGet (entities_of d) code)))
      ∧ (g.nodes.map fun n => n.itemStyle.color)[3]?
          = some (status_color (status_of (dictGet (entities_of d) code))))
    ∧ (health_color (health_of (dictGet (entities_of d) code)) = "#00FF94"
        ↔ 80 ≤ health_of (dictGet (entities_of d) code))
    ∧ (health_color (health_of (dictGet (entities_of d) code)) = "#FFD700"
        ↔ 60 ≤ health_of (dictGet (entities_of d) code)
            ∧ health_of (dictGet (entities_of d) code) < 80)
    ∧ (health_color (health_of (dictGet (entities_of d) code)) = "#FF0055"
        ↔ health_of (dictGet (entities_of d) code) < 60)
    ∧ (pending_color (pending_of (dictGet (entities_of d) code)) = "#FF6B35"
        ↔ 0 < pending_of (dictGet (entities_of d) code))
    ∧ (pending_color (pending_of (dictGet (entities_of d) code)) = "#00FF94"
        ↔ pending_of (dictGet (entities_of d) code) = 0)
    ∧ (status_color (status_of (dictGet (entities_of d) code)) = "#00FF94"
        ↔ status_of (dictGet (entities_of d) code) = "Active")
    ∧ (status_color (status_of (dictGet (entities_of d) code)) = "#FF0055"
        ↔ status_of (dictGet (entities_of d) code) ≠ "Active") := by
  simp only [render_entity_orbit, hcode] at hg
  obtain rfl : _ = g := Option.some_injective _ hg
  refine ⟨⟨rfl, rfl, rfl⟩, ?_, ?_, ?_, ?_, ?_, ?_, ?_⟩
  · simp only [health_color]
    split_ifs with h1 h2 <;> simp_all
  · simp only [health_color]
    split_ifs with h1 h2 <;> simp_all
  · simp only [health_color]
    split_ifs with h1 h2 <;> simp_all
    omega
  · simp only [pending_color]
    split_ifs with h1 <;> simp_all
  · simp only [pending_color]
    split_ifs with h1 <;> simp_all <;> omega
  · simp only [status_color]
    split_ifs with h1 <;> simp_all
  · simp only [status_color]
    split_ifs with h1 <;> simp_all

/-- Witness for claim C5: AFK with health 79, 2 pending items, status
"Active" — the satellites carry the threshold colors. -/
theorem orbit_satellite_colors_witness :
    ((afk_orbit_79.nodes.map fun n => n.itemStyle.color)[1]?
        = some (health_color (health_of (dictGet (entities_of (some sample_live)) "AFK")))
      ∧ (afk_orbit_79.nodes.map fun n => n.itemStyle.color)[2]?
          = some (pending_color (pending_of (dictGet (entities_of (some sample_live)) "AFK")))
      ∧ (afk_orbit_79.nodes.map fun n => n.itemStyle.color)[3]?
          = some (status_color (status_of (dictGet (entities_of (some sample_live)) "AFK"))))
    ∧ (health_color (health_of (dictGet (entities_of (some sample_live)) "AFK")) = "#00FF94"
        ↔ 80 ≤ health_of (dictGet (entities_of (some sample_live)) "AFK"))
    ∧ (health_color (health_of (dictGet (entities_of (some sample_live)) "AFK")) = "#FFD700"
        ↔ 60 ≤ health_of (dictGet (entities_of (some sample_live)) "AFK")
            ∧ health_of (dictGet (entities_of (some sample_live)) "AFK") < 80)
    ∧ (health_color (health_of (dictGet (entities_of (some sample_live)) "AFK")) = "#FF0055"
        ↔ health_of (dictGet (entities_of (some sample_live)) "AFK") < 60)
    ∧ (pending_color (pending_of (dictGet (entities_of (some sample_live)) "AFK")) = "#FF6B35"
        ↔ 0 < pending_of (dictGet (entities_of (some sample_live)) "AFK"))
    ∧ (pending_color (pending_of (dictGet (entities_of (some sample_live)) "AFK")) = "#00FF94"
        ↔ pending_of (dictGet (entities_of (some sample_live)) "AFK") = 0)
    ∧ (status_color (status_of (dictGet (entities_of (some sample_live)) "AFK")) = "#00FF94"
        ↔ status_of (dictGet (entities_of (some sample_live)) "AFK") = "Active")
    ∧ (status_color (status_of (dictGet (entities_of (some sample_live)) "AFK")) = "#FF0055"
        ↔ status_of (dictGet (entities_of (some sample_live)) "AFK") ≠ "Active") :=
  orbit_satellite_colors ENTITIES "AFK" afk_info (some sample_live) afk_orbit_79
    (by decide) rfl (by decide)

/-- Claim C6: with no snapshot, the universe graph is the same graph as for
an empty snapshot, still has one node per entity plus the core, every
metric defaults to health 80 / pending 0 / status "Active", and every
entity node has size 62. -/
theorem snapshot_none_defaults (r : List (String × EntityInfo)) :
    render_universe r none
      = render_universe r (some ⟨[], none, none, none, none, none⟩)
    ∧ (render_universe r none).nodes.length = r.length + 1
    ∧ (∀ code, health_of (dictGet (entities_of none) code) = 80
        ∧ pending_of (dictGet (entities_of none) code) = 0
        ∧ status_of (dictGet (entities_of none) code) = "Active")
    ∧ ∀ p ∈ r,
        (universe_entity_node (dictGet (entities_of none) p.1) p.1 p.2).symbolSize = 62 := by
  refine ⟨rfl, ?_, ?_, ?_⟩
  · simp [render_universe]
  · intro code
    exact ⟨rfl, rfl, rfl⟩
  · intro p _
    show (30 : ℚ) + ((health_of (dictGet (entities_of none) p.1) : ℚ) / 100) * 40 = 62
    norm_num [entities_of, dictGet, health_of]

/-- Claim C7: the orbit builder returns `None` exactly for codes not in the
registry; in particular `"ZZZZ"` on the standard registry gives `None`,
and every registered code gives a graph. -/
theorem orbit_none_iff_unregistered :
    (∀ (r : List (String × EntityInfo)) (code : String) (d : Option LiveData),
        render_entity_orbit r code d = none ↔ dictGet r code = none)
    ∧ render_entity_orbit ENTITIES "ZZZZ" none = none
    ∧ ∀ (r : List (String × EntityInfo)) (code : String) (d : Option LiveData)
        (info : EntityInfo), dictGet r code = some info →
        (render_entity_orbit r code d).isSome = true := by
  refine ⟨?_, by decide, ?_⟩
  · intro r code d
    cases h : dictGet r code <;> simp [render_entity_orbit, h]
  · intro r code d info h
    simp [render_entity_orbit, h]

/-- The registry restricted to AFK, GAKC, GAKP and COMF (the scenario of
§8 of the spec), in `ENTITIES` order. -/
def scenario_registry : List (String × EntityInfo) :=
  ENTITIES.filter fun p =>
    p.1 == "AFK" || p.1 == "GAKC" || p.1 == "GAKP" || p.1 == "COMF"

/-- Claim C8: the edge set of the universe graph is exactly one hub edge
per entity plus one Kenya peer edge per unordered pair of Kenya entities
plus one USA peer edge per unordered pair of non-regulated USA entities,
and nothing else; on the registry restricted to AFK, GAKC, GAKP, COMF
the only peer edge is AFK–GAKC. -/
theorem universe_edges_exact :
    (∀ (r : List (String × EntityInfo)) (d : Option LiveData) (l : ULink),
      l ∈ (render_universe r d).links
        ↔ (∃ p ∈ r, l = hub_link p.1 p.2)
          ∨ (∃ e1 e2, List.Sublist [e1, e2] (kenya_names r)
              ∧ l = peer_link e1 e2 kenyaPeerColor)
          ∨ (∃ e1 e2, List.Sublist [e1, e2] (usa_names r)
              ∧ l = peer_link e1 e2 usaPeerColor))
    ∧ ∀ d, (render_universe scenario_registry d).links
        = (scenario_registry.map fun p => hub_link p.1 p.2)
            ++ [peer_link "🌾 AFK" "📦 GAKC" kenyaPeerColor] := by
  constructor
  · intro r d l
    simp only [render_universe, kenya_peer_links, usa_peer_links,
      List.mem_append, List.mem_map, mem_pair_links]
    constructor
    · rintro ((⟨p, hp, rfl⟩ | h) | h)
      · exact Or.inl ⟨p, hp, rfl⟩
      · exact Or.inr (Or.inl h)
      · exact Or.inr (Or.inr h)
    · rintro (⟨p, hp, rfl⟩ | h | h)
      · exact Or.inl (Or.inl ⟨p, hp, rfl⟩)
      · exact Or.inl (Or.inr h)
      · exact Or.inr h
  · intro d
    show (scenario_registry.map fun p => hub_link p.1 p.2)
        ++ kenya_peer_links scenario_registry ++ usa_peer_links scenario_registry
      = _
    rw [List.append_assoc]
    congr 1

/-- Claim C9: universe graphs depend only on the snapshot's metrics for
registered codes — snapshots that agree there (whatever their entries for
unknown codes and their top-level aggregate blocks) yield identical graphs. -/
theorem universe_noninterference (r : List (String × EntityInfo))
    (d1 d2 : LiveData)
    (h : ∀ p ∈ r, dictGet d1.entities p.1 = dictGet d2.entities p.1) :
    render_universe r (some d1) = render_universe r (some d2) := by
  simp only [render_universe, entities_of]
  congr 1
  exact congrArg (core_node :: ·)
    (List.map_congr_left fun p hp => by rw [h p hp])

/-- A snapshot with an AFK entry, an entry for an unregistered code, and
populated aggregate blocks. -/
def noisy_live : LiveData :=
  ⟨[("AFK", sample_metrics), ("ZZZZ", ⟨some 1, some 9, some "Down", some "x"⟩)],
   some ⟨some 7⟩, some ⟨some 3⟩, some ⟨some 2⟩, some ⟨some 1, ["alert"]⟩,
   some "today"⟩

/-- A snapshot agreeing with `noisy_live` on every registered code but with
no junk entry and empty aggregates. -/
def quiet_live : LiveData :=
  ⟨[("AFK", sample_metrics)], none, none, none, none, none⟩

/-- Witness for claim C9: the noisy and quiet snapshots above agree on the
six registered codes and give the same universe graph. -/
theorem universe_noninterference_witness :
    render_universe ENTITIES (some noisy_live)
      = render_universe ENTITIES (some quiet_live) :=
  universe_noninterference ENTITIES noisy_live quiet_live (by decide)

/-- Claim C10: no dangling edges — in every universe graph, and in every
orbit graph of a registered code, each edge's source and target name a
node of that graph. -/
theorem graphs_no_dangling_edges :
    (∀ (r : List (String × EntityInfo)) (d : Option LiveData),
      ∀ l ∈ (render_universe r d).links,
        l.source ∈ (render_universe r d).nodes.map UNode.name
        ∧ l.target ∈ (render_universe r d).nodes.map UNode.name)
    ∧ ∀ (r : List (String × EntityInfo)) (code : String) (d : Option LiveData)
        (g : OGraph), render_entity_orbit r code d = some g →
        ∀ l ∈ g.links,
          l.source ∈ g.nodes.map ONode.name ∧ l.target ∈ g.nodes.map ONode.name := by
  constructor
  · intro r d l hl
    have hnodes : (render_universe r d).nodes.map UNode.name
        = "GANDI\nCORE" :: r.map fun p => entity_name p.1 p.2 := by
      simp only [render_universe, List.map_cons, List.map_map]
      rfl
    rw [hnodes]
    have hname_mem : ∀ x : String, (∃ p ∈ r, entity_name p.1 p.2 = x) →
        x ∈ "GANDI\nCORE" :: r.map fun p => entity_name p.1 p.2 := by
      rintro x ⟨p, hp, rfl⟩
      exact List.mem_cons_of_mem _ (List.mem_map_of_mem _ hp)
    simp only [render_universe, kenya_peer_links, usa_peer_links,
      List.mem_append] at hl
    rcases hl with (hl | hl) | hl
    · rcases List.mem_map.mp hl with ⟨p, hp, rfl⟩
      constructor
      · exact List.mem_cons_self _ _
      · exact hname_mem _ ⟨p, hp, rfl⟩
    · have hend := pair_links_endpoints hl
      exact ⟨hname_mem _ (kenya_names_sub hend.1), hname_mem _ (kenya_names_sub hend.2)⟩
    · have hend := pair_links_endpoints hl
      constructor
      · obtain ⟨p, hp, _, _, hx⟩ := usa_names_sub hend.1
        exact hname_mem _ ⟨p, hp, hx⟩
      · obtain ⟨p, hp, _, _, hx⟩ := usa_names_sub hend.2
        exact hname_mem _ ⟨p, hp, hx⟩
  · intro r code d g hg l hl
    cases hcode : dictGet r code with
    | none => simp [render_entity_orbit, hcode] at hg
    | some info =>
      simp only [render_entity_orbit, hcode] at hg
      obtain rfl : _ = g := Option.some_injective _ hg
      simp only [List.mem_cons, List.mem_singleton] at hl
      rcases hl with rfl | rfl | rfl | h
      · simp
      · simp
      · simp
      · simp at h

/-- Witness for claim C10: a concrete hub edge of the standard universe
graph, and the AFK orbit graph, both have their endpoints among the node
names. -/
theorem graphs_no_dangling_edges_witness :
    ((hub_link "AFK" afk_info).source
        ∈ (render_universe ENTITIES none).nodes.map UNode.name
      ∧ (hub_link "AFK" afk_info).target
        ∈ (render_universe ENTITIES none).nodes.map UNode.name)
    ∧ ∀ l ∈ afk_orbit_79.links,
        l.source ∈ afk_orbit_79.nodes.map ONode.name
        ∧ l.target ∈ afk_orbit_79.nodes.map ONode.name :=
  ⟨graphs_no_dangling_edges.1 ENTITIES none (hub_link "AFK" afk_info)
      (by simp [render_universe, ENTITIES]),
   graphs_no_dangling_edges.2 ENTITIES "AFK" (some sample_live) afk_orbit_79 rfl⟩

/-- Counterexample to claim C2 as stated: an HTTP response with a
non-success status (404) makes `fetch_n8n_webhook` return `None`, not a
failure result carrying an error description. -/
theorem fetch_non_success_returns_none :
    fetch_n8n_webhook (HttpResult.response 404 (Except.ok "body")) = FetchResult.nothing
    ∧ (fetch_n8n_webhook (HttpResult.response 404 (Except.ok "body"))).isErrorDict = false := by
  constructor <;> rfl

/-- Claim C2 (amended): `fetch_n8n_webhook` never raises — it totally maps
every transport outcome to a value — and returns the `{"error": ...}`
failure dict exactly when the request raised (transport failure, timeout)
or a 200 body failed to parse; a non-success status yields `None`, and a
parseable 200 body is returned as-is. -/
theorem fetch_uniform_failure {α : Type} (e : String) (s : Int)
    (b : Except String α) (v : α) (pe : String) (hs : s ≠ 200) :
    fetch_n8n_webhook (HttpResult.exn (α := α) e) = FetchResult.errorDict e
    ∧ fetch_n8n_webhook (HttpResult.response s b) = FetchResult.nothing
    ∧ fetch_n8n_webhook (HttpResult.response 200 (Except.ok v)) = FetchResult.json v
    ∧ fetch_n8n_webhook (HttpResult.response 200 (Except.error (α := α) pe))
        = FetchResult.errorDict pe := by
  refine ⟨rfl, ?_, ?_, ?_⟩
  · simp [fetch_n8n_webhook, hs]
  · rfl
  · rfl

/-- Witness for the amended claim C2: a timeout message surfaces as the
error dict, and a 500 response surfaces as `None`. -/
theorem fetch_uniform_failure_witness :
    fetch_n8n_webhook (HttpResult.exn (α := String) "timed out")
        = FetchResult.errorDict "timed out"
    ∧ fetch_n8n_webhook (HttpResult.response 500 (Except.ok "oops"))
        = FetchResult.nothing
    ∧ fetch_n8n_webhook (HttpResult.response 200 (Except.ok "ok"))
        = FetchResult.json "ok"
    ∧ fetch_n8n_webhook (HttpResult.response 200 (Except.error (α := String) "bad json"))
        = FetchResult.errorDict "bad json" :=
  fetch_uniform_failure "timed out" 500 (Except.ok "oops") "ok" "bad json" (by decide)

end Gandi
